import Mathlib

/-!
# SkillSync Pro — verification of the analysis store, upload gate and engine contract

Shallow embedding of the TypeScript frontend (`src/frontend/src`, plus the
unnamed variants under `src/unnamed`) and, where the repository does not ship
the backend engine's source, a model of the engine built from the design
specification.  Machine integers do not overflow in any embedded path, so
numbers are `Nat`/`Int`/`ℚ`.
-/

namespace SkillSync

/-! ## Shared response types (src/frontend/src/types / part_000) -/

/-- `AnalysisResponse` as consumed by the store: only the fields the store
reads (`success`, `match_percentage`, `skill_analysis`, `recommendations`
are opaque to the store's control flow except `success`).  We keep `success`
and treat the rest as an opaque payload string-free record. -/
structure AnalysisResponse where
  success : Bool
  match_percentage : ℚ
  deriving DecidableEq, Repr

/-- The slice of `AnalysisState` that the claims speak about.  The history
fields (`analysisHistory`, `todayAnalysisCount`, `showAdvanced`) are omitted:
none of the embedded branches of `analyzeResume` read them, and the elided
writes (`fetchTodayCount`) touch only those omitted fields. -/
structure Store where
  resumeText : String
  jobDescription : String
  analysisResult : Option AnalysisResponse
  isAnalyzing : Bool
  error : Option String
  deriving DecidableEq, Repr

/-- JS `!text.trim()`: the string trims to the empty string, i.e. every
character is whitespace.  (Stated directly on the characters so that the
predicate evaluates.) -/
def isBlank (s : String) : Bool := s.data.all Char.isWhitespace

/-! ## `analyzeResume` — src/frontend/src/store/analysisStore.ts, lines 26–59

The async action is embedded as a function from the pre-state and the outcome
of `apiService.analyzeResume` (resolution with a response, or rejection with a
message — `api.ts` rejects with an `Error`, so the message is always present)
to the post-state, paired with a flag recording whether the API request was
issued at all. -/

/-- `analyzeResume` from `src/frontend/src/store/analysisStore.ts`.
The two early-return validation branches issue no request (flag `false`). -/
def analyzeResume (s : Store) (api : Except String AnalysisResponse) :
    Store × Bool :=
  if isBlank s.resumeText ∨ isBlank s.jobDescription then
    ({ s with error := some "Please provide both resume and job description" },
     false)
  else if s.resumeText.length < 50 ∨ s.jobDescription.length < 50 then
    ({ s with error := some "Both texts must be at least 50 characters long" },
     false)
  else
    -- set({ isAnalyzing: true, error: null }) then await the API call
    let s₁ : Store := { s with isAnalyzing := true, error := none }
    match api with
    | .ok result =>
        ({ s₁ with analysisResult := some result, isAnalyzing := false,
                   error := none }, true)
    | .error msg =>
        ({ s₁ with isAnalyzing := false, error := some msg }, true)

/-- `analyzeResume` from the variant store in `src/unnamed/part_002`
(lines 92–163).  Validation failures only toast (no `error` write); a resolved
response with `success = false` is re-thrown as `Error('Analysis failed')` and
caught by the outer handler.  The history side effects in the success branch
write none of the embedded fields. -/
def analyzeResumeV2 (s : Store) (api : Except String AnalysisResponse) :
    Store × Bool :=
  if isBlank s.resumeText ∨ isBlank s.jobDescription then
    (s, false)
  else if s.resumeText.length < 50 ∨ s.jobDescription.length < 50 then
    (s, false)
  else
    let s₁ : Store := { s with isAnalyzing := true, error := none }
    match api with
    | .ok result =>
        if result.success then
          ({ s₁ with analysisResult := some result, isAnalyzing := false },
           true)
        else
          ({ s₁ with error := some "Analysis failed", isAnalyzing := false,
                     analysisResult := none }, true)
    | .error msg =>
        ({ s₁ with error := some msg, isAnalyzing := false,
                   analysisResult := none }, true)

end SkillSync

namespace SkillSync

/-! ## SkillCard relevance buckets — src/unnamed/part_009 -/

/-- `getRelevanceColor` (part_009, lines 91–95): CSS class for a relevance
score.  JS numbers are embedded as exact rationals. -/
def getRelevanceColor (score : ℚ) : String :=
  if score ≥ 0.8 then "text-green-600 dark:text-green-400"
  else if score ≥ 0.6 then "text-blue-600 dark:text-blue-400"
  else "text-gray-600 dark:text-gray-400"

/-- The priority text rendered in the expanded skill details
(part_009, lines 209–211). -/
def priorityLabel (score : ℚ) : String :=
  if score ≥ 0.8 then "High Priority"
  else if score ≥ 0.6 then "Medium Priority"
  else "Low Priority"

/-- The progress-bar colour class (part_009, lines 183–185). -/
def relevanceBarColor (score : ℚ) : String :=
  if score ≥ 0.8 then "bg-green-500"
  else if score ≥ 0.6 then "bg-blue-500"
  else "bg-gray-500"

end SkillSync

namespace SkillSync

/-- C1: a store state whose resume or job-description text is whitespace-only
or shorter than 50 characters makes `analyzeResume` (both the
`analysisStore.ts` and the `part_002` variant) return without issuing the
analysis API request, leaving `analysisResult`, `resumeText` and
`jobDescription` unchanged. -/
theorem analyzeResume_rejects_invalid_input (s : Store)
    (api api' : Except String AnalysisResponse)
    (h : isBlank s.resumeText ∨ s.resumeText.length < 50 ∨
         isBlank s.jobDescription ∨ s.jobDescription.length < 50) :
    ((analyzeResume s api).2 = false ∧
     (analyzeResume s api).1.analysisResult = s.analysisResult ∧
     (analyzeResume s api).1.resumeText = s.resumeText ∧
     (analyzeResume s api).1.jobDescription = s.jobDescription) ∧
    ((analyzeResumeV2 s api').2 = false ∧
     (analyzeResumeV2 s api').1.analysisResult = s.analysisResult ∧
     (analyzeResumeV2 s api').1.resumeText = s.resumeText ∧
     (analyzeResumeV2 s api').1.jobDescription = s.jobDescription) := by
  unfold analyzeResume analyzeResumeV2
  split_ifs with h₁ h₂ h₃ h₄ h₅ h₆ <;> simp_all <;> omega

/-- Witness for C1: a concrete short resume text hits the validation branch. -/
theorem analyzeResume_rejects_invalid_input_witness :
    ((isBlank "short" ∨ "short".length < 50 ∨
      isBlank "a job description" ∨ "a job description".length < 50) ∧
     (analyzeResume ⟨"short", "a job description", none, false, none⟩
        (.error "x")).2 = false) := by
  refine ⟨Or.inr (Or.inl (by decide)), ?_⟩
  exact (analyzeResume_rejects_invalid_input
    ⟨"short", "a job description", none, false, none⟩
    (.error "x") (.error "x") (Or.inr (Or.inl (by decide)))).1.1

end SkillSync

namespace SkillSync

/-- A concrete resume text of length ≥ 50 accepted by the validator. -/
def resumeOk : String :=
  "Experienced software engineer skilled in Python and React development"

/-- A concrete job-description text of length ≥ 50 accepted by the validator. -/
def jobOk : String :=
  "Looking for a developer with Python, Kubernetes and React experience"

/-- C2 counterexample: in the `analysisStore.ts` variant a resolved response
with `success = false` is stored verbatim in `analysisResult` and `error`
stays `null`, contradicting the claim at this input. -/
theorem analyzeResume_stores_success_false :
    (AnalysisResponse.mk false 0).success = false ∧
    (analyzeResume ⟨resumeOk, jobOk, none, false, none⟩
        (.ok ⟨false, 0⟩)).1.error = none ∧
    (analyzeResume ⟨resumeOk, jobOk, none, false, none⟩
        (.ok ⟨false, 0⟩)).1.analysisResult = some ⟨false, 0⟩ := by
  refine ⟨rfl, ?_, ?_⟩ <;>
    simp [analyzeResume, resumeOk, jobOk, isBlank, String.length]

/-- C2 (amended): when the API call fails, the `part_002` variant establishes
the claimed post-state in full (`isAnalyzing = false`, non-null `error`, and
`analysisResult` never holds a `success = false` response); the
`analysisStore.ts` variant establishes it only for rejections, where it
leaves `analysisResult` untouched. -/
theorem analyzeResume_failure_path (s : Store)
    (api : Except String AnalysisResponse)
    (hv : isBlank s.resumeText = false ∧ isBlank s.jobDescription = false ∧
          50 ≤ s.resumeText.length ∧ 50 ≤ s.jobDescription.length)
    (hfail : (∃ msg, api = .error msg) ∨
             (∃ r, api = .ok r ∧ r.success = false)) :
    ((analyzeResumeV2 s api).1.isAnalyzing = false ∧
     (analyzeResumeV2 s api).1.error ≠ none ∧
     (∀ r, (analyzeResumeV2 s api).1.analysisResult = some r →
        r.success = true)) ∧
    (∀ msg, api = .error msg →
       (analyzeResume s api).1.isAnalyzing = false ∧
       (analyzeResume s api).1.error ≠ none ∧
       (analyzeResume s api).1.analysisResult = s.analysisResult) := by
  obtain ⟨hb₁, hb₂, hl₁, hl₂⟩ := hv
  have hc₁ : ¬(isBlank s.resumeText ∨ isBlank s.jobDescription) := by
    simp [hb₁, hb₂]
  have hc₂ : ¬(s.resumeText.length < 50 ∨ s.jobDescription.length < 50) := by
    omega
  constructor
  · unfold analyzeResumeV2
    rw [if_neg hc₁, if_neg hc₂]
    rcases hfail with ⟨msg, rfl⟩ | ⟨r, rfl, hr⟩
    · simp
    · simp [hr]
  · rintro msg rfl
    unfold analyzeResume
    rw [if_neg hc₁, if_neg hc₂]
    simp

/-- Witness for C2 (amended): a concrete valid state and a rejected API call. -/
theorem analyzeResume_failure_path_witness :
    (isBlank resumeOk = false ∧ 50 ≤ resumeOk.length) ∧
    (analyzeResumeV2 ⟨resumeOk, jobOk, none, false, none⟩
        (.error "Network error")).1.error ≠ none := by
  refine ⟨⟨by decide, by decide⟩, ?_⟩
  exact (analyzeResume_failure_path ⟨resumeOk, jobOk, none, false, none⟩
    (.error "Network error")
    ⟨by decide, by decide, by decide, by decide⟩
    (Or.inl ⟨"Network error", rfl⟩)).1.2.1

/-- C3: the displayed priority bucket and the relevance colouring (text class
and bar class) are all partitioned by the thresholds 0.8 and 0.6. -/
theorem skillCard_relevance_buckets (s : ℚ) (h₀ : 0 ≤ s) (h₁ : s ≤ 1) :
    (priorityLabel s = "High Priority" ↔ 0.8 ≤ s) ∧
    (priorityLabel s = "Medium Priority" ↔ 0.6 ≤ s ∧ s < 0.8) ∧
    (priorityLabel s = "Low Priority" ↔ s < 0.6) ∧
    (getRelevanceColor s = "text-green-600 dark:text-green-400" ↔ 0.8 ≤ s) ∧
    (getRelevanceColor s = "text-blue-600 dark:text-blue-400" ↔
        0.6 ≤ s ∧ s < 0.8) ∧
    (getRelevanceColor s = "text-gray-600 dark:text-gray-400" ↔ s < 0.6) ∧
    (relevanceBarColor s = "bg-green-500" ↔ 0.8 ≤ s) ∧
    (relevanceBarColor s = "bg-blue-500" ↔ 0.6 ≤ s ∧ s < 0.8) ∧
    (relevanceBarColor s = "bg-gray-500" ↔ s < 0.6) := by
  unfold priorityLabel getRelevanceColor relevanceBarColor
  split_ifs with hA hB <;>
    refine ⟨?_, ?_, ?_, ?_, ?_, ?_, ?_, ?_, ?_⟩ <;>
    simp_all <;> first | linarith | decide

/-- Witness for C3: the thresholds evaluated at 0.7. -/
theorem skillCard_relevance_buckets_witness :
    ((0 : ℚ) ≤ 0.7 ∧ (0.7 : ℚ) ≤ 1) ∧
    (priorityLabel 0.7 = "Medium Priority" ↔ (0.6 : ℚ) ≤ 0.7 ∧ (0.7 : ℚ) < 0.8) := by
  refine ⟨⟨by norm_num, by norm_num⟩, ?_⟩
  exact (skillCard_relevance_buckets 0.7 (by norm_num) (by norm_num)).2.1

end SkillSync

namespace Engine

/-!
## The analysis engine — modelled from the spec

The backend engine's source is not part of the inspected repository (the
spec's §2 notes only its external contract was observable; `src/` holds the
frontend only).  The definitions below are therefore modelled from the
specification (§§3–4.9), with texts taken post-tokenization: a text is its
finite sequence of raw tokens, so the Entity Extractor's tokenizer (§4.2) is
abstracted, and "adding a skill's text to the resume" is appending its raw
term.
-/

/-- Modelled from the spec (§3, §9): the immutable alias/taxonomy table plus
the recommendation cap, passed into every analysis call. -/
structure Config where
  aliasTable : List (String × String)
  categoryTable : List (String × String)
  topN : Nat
  deriving Repr

/-- ASCII lowering on the character sequence (JS `toLowerCase` for the ASCII
range relevant to skill ids). -/
def lowered (s : String) : String := ⟨s.data.map Char.toLower⟩

/-- Modelled from the spec (§4.2): a punctuation-only token, stripped by the
extractor. -/
def isPunctOnly (t : String) : Bool := t.data.all fun c => !c.isAlphanum

/-- Modelled from the spec (§4.3): the Skill Normalizer maps a raw term
through the alias table; unrecognized terms pass through as their own
(lower-cased) canonical id. -/
def normalize (cfg : Config) (raw : String) : String :=
  match List.lookup (lowered raw) cfg.aliasTable with
  | some canonical => canonical
  | none => lowered raw

/-- Modelled from the spec (§4.2–§4.3): extraction strips punctuation-only
tokens, normalizes each remaining raw term and deduplicates identical
canonical ids into a set. -/
def extractSkills (cfg : Config) (tokens : List String) : Finset String :=
  ((tokens.filter fun t => !isPunctOnly t).map (normalize cfg)).toFinset

/-- Modelled from the spec (§4.4): category lookup with `Other` as default. -/
def categoryOf (cfg : Config) (id : String) : String :=
  (List.lookup id cfg.categoryTable).getD "Other"

/-- Modelled from the spec (§4.6): a deterministic 0–1 relevance score of a
job-side skill from textual emphasis; embodied as mention frequency
normalized against a cap of three mentions (positional and emphasis-marker
weights were not observable and are absorbed into the frequency signal). -/
def relevance (cfg : Config) (jobTokens : List String) (id : String) : ℚ :=
  min 1 (((jobTokens.filter fun t => normalize cfg t == id).length : ℚ) / 3)

/-- Rounding to one decimal place (§4.7). -/
def round1 (x : ℚ) : ℚ := (round (10 * x) : ℤ) / 10

/-- Clamping to `[0, 100]` (§4.7). -/
def clamp100 (x : ℚ) : ℚ := min 100 (max 0 x)

/-- Modelled from the spec (§4.7): raw coverage — the primary signal — with
the empty-job guard, clamped to `[0, 100]` and rounded to one decimal. -/
def matchPercentage (matching jobSkills : Finset String) : ℚ :=
  if jobSkills.card = 0 then 0
  else round1 (clamp100 (100 * matching.card / jobSkills.card))

/-- The `Skill` record of §3: canonical name, category, and an optional
relevance score (populated for job-side skills only). -/
structure Skill where
  name : String
  category : String
  relevance_score : Option ℚ
  deriving DecidableEq, Repr

/-- A job-side `Skill` (matching or gap): carries its relevance (§4.5). -/
def mkJobSkill (cfg : Config) (jobTokens : List String) (id : String) :
    Skill :=
  ⟨id, categoryOf cfg id, some (relevance cfg jobTokens id)⟩

/-- A resume-only `Skill`: no job-side relevance (§3, §4.5). -/
def mkResumeSkill (cfg : Config) (id : String) : Skill :=
  ⟨id, categoryOf cfg id, none⟩

/-- The `SkillAnalysis` record of §3. -/
structure SkillAnalysis where
  matching_skills : List Skill
  skill_gaps : List Skill
  unique_skills : List Skill
  deriving Repr

/-- The part of `AnalysisResponse` (§3) the engine claims speak about. -/
structure Response where
  success : Bool
  match_percentage : ℚ
  skill_analysis : SkillAnalysis
  recommendations : List String
  deriving Repr

/-- Modelled from the spec (§4.9): the uniform failure result (`success:false`
with no partial fields populated). -/
def failureResponse : Response := ⟨false, 0, ⟨[], [], []⟩, []⟩

/-- Modelled from the spec (§4.8): one natural-language suggestion per
selected gap, referencing the skill and its category. -/
def recommendationText (cfg : Config) (id : String) : String :=
  "Consider developing " ++ id ++ " (" ++ categoryOf cfg id ++ ")"

/-- Modelled from the spec (§4.8): gap ordering — relevance score descending,
ties broken by skill name ascending. -/
def gapLE (cfg : Config) (jobTokens : List String) (a b : String) : Bool :=
  decide (relevance cfg jobTokens b < relevance cfg jobTokens a ∨
    (relevance cfg jobTokens a = relevance cfg jobTokens b ∧ a ≤ b))

/-- Modelled from the spec (§4.8): gaps sorted by relevance descending (name
ascending on ties), capped to the configured top `N`, one text each. -/
def recommendationsFor (cfg : Config) (jobTokens : List String)
    (gaps : Finset String) : List String :=
  ((List.mergeSort (gaps.sort (· ≤ ·)) (gapLE cfg jobTokens)).take
    cfg.topN).map (recommendationText cfg)

/-- Character count of a tokenized text (§4.1's length gate). -/
def textLength (tokens : List String) : Nat := (tokens.map String.length).sum

/-- Modelled from the spec (§4.1–§4.9): the full `analyze` operation.
Validation rejects texts under 50 characters with the uniform failure
response; otherwise the matcher's set operations (§4.5), the match
percentage (§4.7) and the recommendations (§4.8) populate the response. -/
def analyze (cfg : Config) (resume job : List String) : Response :=
  if textLength resume < 50 ∨ textLength job < 50 then failureResponse
  else
    let resumeSkills := extractSkills cfg resume
    let jobSkills := extractSkills cfg job
    let matching := resumeSkills ∩ jobSkills
    let gaps := jobSkills \ resumeSkills
    let uniqueSkills := resumeSkills \ jobSkills
    { success := true
      match_percentage := matchPercentage matching jobSkills
      skill_analysis :=
        ⟨(matching.sort (· ≤ ·)).map (mkJobSkill cfg job),
         (gaps.sort (· ≤ ·)).map (mkJobSkill cfg job),
         (uniqueSkills.sort (· ≤ ·)).map (mkResumeSkill cfg)⟩
      recommendations := recommendationsFor cfg job gaps }

/-- A concrete taxonomy/alias table for witnesses. -/
def sampleConfig : Config :=
  ⟨[("js", "javascript"), ("react.js", "react"), ("reactjs", "react")],
   [("javascript", "Programming"), ("python", "Programming"),
    ("react", "Frontend"), ("kubernetes", "Cloud/DevOps"),
    ("docker", "Cloud/DevOps")],
   5⟩

end Engine

namespace Engine

theorem round_mono_rat {x y : ℚ} (h : x ≤ y) : round x ≤ round y := by
  rw [round_eq, round_eq]
  exact Int.floor_mono (by linarith)

theorem round1_mono {x y : ℚ} (h : x ≤ y) : round1 x ≤ round1 y := by
  unfold round1
  have : round (10 * x) ≤ round (10 * y) := round_mono_rat (by linarith)
  have hc : ((round (10 * x) : ℤ) : ℚ) ≤ ((round (10 * y) : ℤ) : ℚ) := by
    exact_mod_cast this
  linarith

theorem round1_nonneg {x : ℚ} (h : 0 ≤ x) : 0 ≤ round1 x := by
  unfold round1
  have h0 : round (0 : ℚ) ≤ round (10 * x) := round_mono_rat (by linarith)
  rw [round_zero] at h0
  have : (0 : ℚ) ≤ ((round (10 * x) : ℤ) : ℚ) := by exact_mod_cast h0
  linarith

theorem round1_le_100 {x : ℚ} (h : x ≤ 100) : round1 x ≤ 100 := by
  unfold round1
  have h1 : round (10 * x) ≤ round ((1000 : ℤ) : ℚ) :=
    round_mono_rat (by push_cast; linarith)
  rw [round_intCast] at h1
  have : ((round (10 * x) : ℤ) : ℚ) ≤ 1000 := by exact_mod_cast h1
  linarith

theorem clamp100_mono {x y : ℚ} (h : x ≤ y) : clamp100 x ≤ clamp100 y :=
  min_le_min le_rfl (max_le_max le_rfl h)

theorem clamp100_nonneg (x : ℚ) : 0 ≤ clamp100 x :=
  le_min (by norm_num) (le_max_left 0 x)

theorem clamp100_le_100 (x : ℚ) : clamp100 x ≤ 100 := min_le_left _ _

theorem matchPercentage_nonneg (M J : Finset String) :
    0 ≤ matchPercentage M J := by
  unfold matchPercentage
  split_ifs
  · exact le_refl 0
  · exact round1_nonneg (clamp100_nonneg _)

theorem matchPercentage_le_100 (M J : Finset String) :
    matchPercentage M J ≤ 100 := by
  unfold matchPercentage
  split_ifs
  · norm_num
  · exact round1_le_100 (clamp100_le_100 _)

theorem matchPercentage_mono {M₁ M₂ : Finset String} (J : Finset String)
    (h : M₁ ⊆ M₂) : matchPercentage M₁ J ≤ matchPercentage M₂ J := by
  unfold matchPercentage
  split_ifs
  · exact le_refl 0
  · apply round1_mono
    apply clamp100_mono
    have hM : (M₁.card : ℚ) ≤ (M₂.card : ℚ) := by
      exact_mod_cast Finset.card_le_card h
    have hJ : (0 : ℚ) ≤ (J.card : ℚ) := by positivity
    gcongr

theorem extractSkills_append (cfg : Config) (xs ys : List String) :
    extractSkills cfg (xs ++ ys) =
      extractSkills cfg xs ∪ extractSkills cfg ys := by
  unfold extractSkills
  rw [List.filter_append, List.map_append, List.toFinset_append]

end Engine

namespace Engine

/-- C4: on accepted input the three buckets of the returned `skill_analysis`
are pairwise disjoint by canonical skill name and each bucket lists each
canonical skill at most once. -/
theorem analyze_buckets_disjoint (cfg : Config) (resume job : List String)
    (hr : 50 ≤ textLength resume) (hj : 50 ≤ textLength job) :
    (((analyze cfg resume job).skill_analysis.matching_skills.map
        Skill.name).Nodup ∧
     ((analyze cfg resume job).skill_analysis.skill_gaps.map
        Skill.name).Nodup ∧
     ((analyze cfg resume job).skill_analysis.unique_skills.map
        Skill.name).Nodup) ∧
    (∀ n, n ∈ (analyze cfg resume job).skill_analysis.skill_gaps.map
        Skill.name →
      n ∉ (analyze cfg resume job).skill_analysis.matching_skills.map
        Skill.name) ∧
    (∀ n, n ∈ (analyze cfg resume job).skill_analysis.unique_skills.map
        Skill.name →
      n ∉ (analyze cfg resume job).skill_analysis.matching_skills.map
        Skill.name) := by
  unfold analyze
  rw [if_neg (by omega)]
  simp only [List.map_map]
  have hname₁ : Skill.name ∘ mkJobSkill cfg job = id := by
    funext i; rfl
  have hname₂ : Skill.name ∘ mkResumeSkill cfg = id := by
    funext i; rfl
  rw [hname₁, hname₂]
  simp only [List.map_id]
  refine ⟨⟨Finset.sort_nodup _ _, Finset.sort_nodup _ _,
           Finset.sort_nodup _ _⟩, ?_, ?_⟩
  · intro n hn hm
    rw [Finset.mem_sort, Finset.mem_sdiff] at hn
    rw [Finset.mem_sort, Finset.mem_inter] at hm
    exact hn.2 hm.1
  · intro n hn hm
    rw [Finset.mem_sort, Finset.mem_sdiff] at hn
    rw [Finset.mem_sort, Finset.mem_inter] at hm
    exact hn.2 hm.2

end Engine

namespace Engine

/-- A concrete tokenized resume text, length ≥ 50 characters. -/
def sampleResume : List String :=
  ["Experienced", "software", "engineer", "skilled", "in", "Python",
   "React", "and", "Docker"]

/-- A concrete tokenized job description, length ≥ 50 characters. -/
def sampleJob : List String :=
  ["Looking", "for", "developer", "with", "Python", "Kubernetes", "and",
   "React", "experience"]

/-- Witness for C4: the sample pair is accepted and its gap names are
disjoint from its matching names. -/
theorem analyze_buckets_disjoint_witness :
    (50 ≤ textLength sampleResume ∧ 50 ≤ textLength sampleJob) ∧
    (((analyze sampleConfig sampleResume sampleJob).skill_analysis.matching_skills.map
        Skill.name).Nodup ∧
     ((analyze sampleConfig sampleResume sampleJob).skill_analysis.skill_gaps.map
        Skill.name).Nodup ∧
     ((analyze sampleConfig sampleResume sampleJob).skill_analysis.unique_skills.map
        Skill.name).Nodup) := by
  refine ⟨⟨by decide, by decide⟩, ?_⟩
  exact (analyze_buckets_disjoint sampleConfig sampleResume sampleJob
    (by decide) (by decide)).1

/-- C5: on accepted input the returned `match_percentage` lies in `[0, 100]`
and is the clamp of a value to `[0, 100]` rounded to one decimal place
(so ten times it is an integer). -/
theorem analyze_match_percentage_range (cfg : Config)
    (resume job : List String)
    (hr : 50 ≤ textLength resume) (hj : 50 ≤ textLength job) :
    0 ≤ (analyze cfg resume job).match_percentage ∧
    (analyze cfg resume job).match_percentage ≤ 100 ∧
    (∃ v : ℚ, (analyze cfg resume job).match_percentage =
        round1 (clamp100 v)) ∧
    (∃ k : ℤ, (analyze cfg resume job).match_percentage = (k : ℚ) / 10) := by
  unfold analyze
  rw [if_neg (by omega)]
  simp only
  refine ⟨matchPercentage_nonneg _ _, matchPercentage_le_100 _ _, ?_, ?_⟩
  · unfold matchPercentage
    split_ifs
    · exact ⟨0, by simp [round1, clamp100]⟩
    · exact ⟨_, rfl⟩
  · unfold matchPercentage
    split_ifs
    · exact ⟨0, by norm_num⟩
    · exact ⟨_, rfl⟩

/-- Witness for C5: the sample pair is accepted and its percentage obeys the
bounds. -/
theorem analyze_match_percentage_range_witness :
    (50 ≤ textLength sampleResume ∧ 50 ≤ textLength sampleJob) ∧
    0 ≤ (analyze sampleConfig sampleResume sampleJob).match_percentage ∧
    (analyze sampleConfig sampleResume sampleJob).match_percentage ≤ 100 := by
  refine ⟨⟨by decide, by decide⟩, ?_, ?_⟩
  · exact (analyze_match_percentage_range sampleConfig sampleResume sampleJob
      (by decide) (by decide)).1
  · exact (analyze_match_percentage_range sampleConfig sampleResume sampleJob
      (by decide) (by decide)).2.1

end Engine

namespace Engine

/-- C6: accepted input whose job description yields an empty job-side skill
set gets `match_percentage = 0` and `skill_gaps = []`; `analyze` is a total
function, so no division-by-zero fault can occur (the zero-denominator case
is guarded). -/
theorem analyze_empty_job_skillset (cfg : Config) (resume job : List String)
    (hr : 50 ≤ textLength resume) (hj : 50 ≤ textLength job)
    (hJ : extractSkills cfg job = ∅) :
    (analyze cfg resume job).match_percentage = 0 ∧
    (analyze cfg resume job).skill_analysis.skill_gaps = [] := by
  unfold analyze
  rw [if_neg (by omega)]
  simp only
  constructor
  · unfold matchPercentage
    rw [hJ]
    simp
  · rw [hJ]
    simp [Finset.empty_sdiff]

/-- A tokenized job text of 50 punctuation characters: long enough to pass
validation, yet containing zero recognizable skills. -/
def punctJob : List String :=
  ["!!!!!!!!!!", "!!!!!!!!!!", "!!!!!!!!!!", "!!!!!!!!!!", "!!!!!!!!!!"]

/-- Witness for C6: the punctuation-only job description. -/
theorem analyze_empty_job_skillset_witness :
    (50 ≤ textLength sampleResume ∧ 50 ≤ textLength punctJob ∧
     extractSkills sampleConfig punctJob = ∅) ∧
    (analyze sampleConfig sampleResume punctJob).match_percentage = 0 := by
  refine ⟨⟨by decide, by decide, by decide⟩, ?_⟩
  exact (analyze_empty_job_skillset sampleConfig sampleResume punctJob
    (by decide) (by decide) (by decide)).1

end Engine

namespace Engine

/-- C7: on accepted input (with a positive configured cap) the
recommendations list is empty exactly when `skill_gaps` is empty, and is
otherwise capped at `topN`; recommendation generation is a total function,
so it never produces an error. -/
theorem analyze_recommendations_iff_gaps (cfg : Config)
    (resume job : List String)
    (hr : 50 ≤ textLength resume) (hj : 50 ≤ textLength job)
    (hN : 0 < cfg.topN) :
    ((analyze cfg resume job).recommendations = [] ↔
      (analyze cfg resume job).skill_analysis.skill_gaps = []) ∧
    (analyze cfg resume job).recommendations.length ≤ cfg.topN := by
  unfold analyze
  rw [if_neg (by omega)]
  simp only
  set gaps := extractSkills cfg job \ extractSkills cfg resume with hgaps
  constructor
  · unfold recommendationsFor
    rw [List.map_eq_nil, List.map_eq_nil, List.take_eq_nil_iff]
    have hlen : (List.mergeSort (gaps.sort (· ≤ ·))
        (gapLE cfg job)).length = gaps.card := by
      rw [List.length_mergeSort, Finset.length_sort]
    constructor
    · rintro (h0 | hnil)
      · omega
      · have : gaps.card = 0 := by rw [← hlen, hnil]; rfl
        rw [← List.length_eq_zero, Finset.length_sort]
        exact this
    · intro hnil
      right
      rw [← List.length_eq_zero, hlen, ← Finset.length_sort (· ≤ ·),
        List.length_eq_zero]
      exact hnil
  · unfold recommendationsFor
    rw [List.length_map]
    exact (List.length_take_le _ _)

/-- Witness for C7: the sample pair with the default cap of five. -/
theorem analyze_recommendations_iff_gaps_witness :
    (50 ≤ textLength sampleResume ∧ 50 ≤ textLength sampleJob ∧
     0 < sampleConfig.topN) ∧
    (analyze sampleConfig sampleResume sampleJob).recommendations.length ≤
      sampleConfig.topN := by
  refine ⟨⟨by decide, by decide, by decide⟩, ?_⟩
  exact (analyze_recommendations_iff_gaps sampleConfig sampleResume sampleJob
    (by decide) (by decide) (by decide)).2

end Engine

namespace Engine

/-- C8: with the job description held fixed, appending the raw text of any
job-required skill to an accepted resume cannot decrease the returned
`match_percentage`. -/
theorem analyze_match_percentage_monotone (cfg : Config)
    (resume job : List String) (w : String)
    (hr : 50 ≤ textLength resume) (hj : 50 ≤ textLength job)
    (hw : w ∈ job) (hp : isPunctOnly w = false) :
    (analyze cfg resume job).match_percentage ≤
      (analyze cfg (resume ++ [w]) job).match_percentage := by
  have hr' : 50 ≤ textLength (resume ++ [w]) := by
    unfold textLength at hr ⊢
    rw [List.map_append, List.sum_append]
    omega
  unfold analyze
  rw [if_neg (by omega), if_neg (by omega)]
  simp only
  apply matchPercentage_mono
  rw [extractSkills_append]
  exact Finset.inter_subset_inter Finset.subset_union_left
    (Finset.Subset.refl _)

/-- Witness for C8: appending the job-required raw term `Kubernetes` to the
sample resume does not decrease the percentage. -/
theorem analyze_match_percentage_monotone_witness :
    (50 ≤ textLength sampleResume ∧ 50 ≤ textLength sampleJob ∧
     "Kubernetes" ∈ sampleJob ∧ isPunctOnly "Kubernetes" = false) ∧
    (analyze sampleConfig sampleResume sampleJob).match_percentage ≤
      (analyze sampleConfig (sampleResume ++ ["Kubernetes"])
          sampleJob).match_percentage := by
  refine ⟨⟨by decide, by decide, by decide, by decide⟩, ?_⟩
  exact analyze_match_percentage_monotone sampleConfig sampleResume sampleJob
    "Kubernetes" (by decide) (by decide) (by decide) (by decide)

end Engine

namespace Upload

/-! ## Upload service — src/frontend/src/services/uploadService.ts -/

/-- The slice of the browser `File` object the service reads. -/
structure JSFile where
  name : String
  type : String
  size : Nat
  deriving DecidableEq, Repr

/-- `UploadResponse` (uploadService.ts, lines 6–12). -/
structure UploadResponse where
  success : Bool
  filename : String
  text : String
  character_count : Nat
  deriving DecidableEq, Repr

/-- JS `endsWith` on the character sequence. -/
def strEndsWith (s suffix : String) : Bool := suffix.data.isSuffixOf s.data

/-- JS `includes` (substring test) on the character sequence. -/
def strContains (s pat : String) : Bool := decide (pat.data <:+: s.data)

/-- The accepted MIME types (uploadService.ts, line 70/108). -/
def validTypes : List String := ["application/pdf", "text/plain"]

/-- The client-side type gate shared by both upload entry points: MIME type
accepted, or lower-cased file name ending in `.txt` or `.pdf`. -/
def passesTypeGate (f : JSFile) : Prop :=
  f.type ∈ validTypes ∨ strEndsWith (Engine.lowered f.name) ".txt" ∨
    strEndsWith (Engine.lowered f.name) ".pdf"

instance (f : JSFile) : Decidable (passesTypeGate f) := by
  unfold passesTypeGate; infer_instance

/-- `uploadFile` (uploadService.ts, lines 15–63): a resolved response with
`success = false` is re-thrown; the catch block re-maps server rejections to
messages, which the embedding folds into the rejection message itself. -/
def uploadFile (server : Except String UploadResponse) :
    Except String UploadResponse :=
  match server with
  | .ok resp => if resp.success then .ok resp else .error "Upload failed"
  | .error e => .error e

/-- The resume keyword gazetteer (uploadService.ts, line 92). -/
def resumeKeywords : List String :=
  ["experience", "education", "skills", "work", "summary", "objective"]

/-- The job-description keyword gazetteer (uploadService.ts, line 130). -/
def jobKeywords : List String :=
  ["requirements", "responsibilities", "qualification", "experience",
   "skills", "position", "role"]

/-- `uploadResume` (uploadService.ts, lines 65–101), embedded as a function
of the file and the server outcome, returning the settled promise and a flag
recording whether the HTTP request was issued. -/
def uploadResume (f : JSFile) (server : Except String UploadResponse) :
    Except String String × Bool :=
  if ¬ passesTypeGate f then
    (.error "Please upload a PDF or TXT file", false)
  else if f.size > 10 * 1024 * 1024 then
    (.error "Resume file size must be less than 10MB", false)
  else
    match uploadFile server with
    | .error e => (.error e, true)
    | .ok resp =>
      if resp.text = "" ∨ resp.character_count < 100 then
        (.error "The document appears to be empty or too short", true)
      else if ¬ (resumeKeywords.any fun kw =>
          strContains (Engine.lowered resp.text) kw) then
        (.error "The document does not appear to be a resume", true)
      else
        (.ok resp.text, true)

/-- `uploadJobDescription` (uploadService.ts, lines 103–139): same gate with
a 5MB cap, a 50-character minimum and the job keyword list. -/
def uploadJobDescription (f : JSFile)
    (server : Except String UploadResponse) :
    Except String String × Bool :=
  if ¬ passesTypeGate f then
    (.error "Please upload a PDF or TXT file", false)
  else if f.size > 5 * 1024 * 1024 then
    (.error "Job description file size must be less than 5MB", false)
  else
    match uploadFile server with
    | .error e => (.error e, true)
    | .ok resp =>
      if resp.text = "" ∨ resp.character_count < 50 then
        (.error "The document appears to be empty or too short", true)
      else if ¬ (jobKeywords.any fun kw =>
          strContains (Engine.lowered resp.text) kw) then
        (.error "The document does not appear to be a job description", true)
      else
        (.ok resp.text, true)

end Upload

namespace Upload

theorem uploadResume_flag (f : JSFile) (sv : Except String UploadResponse) :
    (uploadResume f sv).2 = true ↔
      (passesTypeGate f ∧ f.size ≤ 10 * 1024 * 1024) := by
  by_cases hg : passesTypeGate f
  · by_cases hs : f.size ≤ 10 * 1024 * 1024
    · unfold uploadResume
      rw [if_neg (not_not_intro hg), if_neg (by omega)]
      refine ⟨fun _ => ⟨hg, hs⟩, fun _ => ?_⟩
      rcases huf : uploadFile sv with e | r
      · rfl
      · simp only
        split_ifs <;> rfl
    · unfold uploadResume
      rw [if_neg (not_not_intro hg), if_pos (by omega)]
      exact ⟨fun h => absurd h Bool.false_ne_true, fun h => absurd h.2 hs⟩
  · unfold uploadResume
    rw [if_pos hg]
    exact ⟨fun h => absurd h Bool.false_ne_true, fun h => absurd h.1 hg⟩

theorem uploadJobDescription_flag (f : JSFile)
    (sv : Except String UploadResponse) :
    (uploadJobDescription f sv).2 = true ↔
      (passesTypeGate f ∧ f.size ≤ 5 * 1024 * 1024) := by
  by_cases hg : passesTypeGate f
  · by_cases hs : f.size ≤ 5 * 1024 * 1024
    · unfold uploadJobDescription
      rw [if_neg (not_not_intro hg), if_neg (by omega)]
      refine ⟨fun _ => ⟨hg, hs⟩, fun _ => ?_⟩
      rcases huf : uploadFile sv with e | r
      · rfl
      · simp only
        split_ifs <;> rfl
    · unfold uploadJobDescription
      rw [if_neg (not_not_intro hg), if_pos (by omega)]
      exact ⟨fun h => absurd h Bool.false_ne_true, fun h => absurd h.2 hs⟩
  · unfold uploadJobDescription
    rw [if_pos hg]
    exact ⟨fun h => absurd h Bool.false_ne_true, fun h => absurd h.1 hg⟩

/-- C9: each upload entry point issues its HTTP request exactly when the
client-side gate passes — MIME type `application/pdf`/`text/plain` or
lower-cased name ending in `.pdf`/`.txt`, and size at most 10MB for resumes
and 5MB for job descriptions — and a file failing the gate yields a rejected
promise with no request issued. -/
theorem upload_client_gate (f : JSFile)
    (server server' : Except String UploadResponse) :
    ((uploadResume f server).2 = true ↔
      (passesTypeGate f ∧ f.size ≤ 10 * 1024 * 1024)) ∧
    ((uploadJobDescription f server').2 = true ↔
      (passesTypeGate f ∧ f.size ≤ 5 * 1024 * 1024)) ∧
    (¬ (passesTypeGate f ∧ f.size ≤ 10 * 1024 * 1024) →
      (uploadResume f server).2 = false ∧
      ∃ msg, (uploadResume f server).1 = .error msg) ∧
    (¬ (passesTypeGate f ∧ f.size ≤ 5 * 1024 * 1024) →
      (uploadJobDescription f server').2 = false ∧
      ∃ msg, (uploadJobDescription f server').1 = .error msg) := by
  refine ⟨uploadResume_flag f server, uploadJobDescription_flag f server',
    fun hfail => ⟨?_, ?_⟩, fun hfail => ⟨?_, ?_⟩⟩
  · have := (uploadResume_flag f server).not
    simp only [Bool.not_eq_true] at this
    exact this.mpr hfail
  · unfold uploadResume
    by_cases hg : passesTypeGate f
    · rw [if_neg (not_not_intro hg), if_pos (by
        rcases Decidable.not_and_iff_or_not.mp hfail with h | h
        · exact absurd hg h
        · omega)]
      exact ⟨_, rfl⟩
    · rw [if_pos hg]
      exact ⟨_, rfl⟩
  · have := (uploadJobDescription_flag f server').not
    simp only [Bool.not_eq_true] at this
    exact this.mpr hfail
  · unfold uploadJobDescription
    by_cases hg : passesTypeGate f
    · rw [if_neg (not_not_intro hg), if_pos (by
        rcases Decidable.not_and_iff_or_not.mp hfail with h | h
        · exact absurd hg h
        · omega)]
      exact ⟨_, rfl⟩
    · rw [if_pos hg]
      exact ⟨_, rfl⟩

end Upload

namespace Upload

/-- A file rejected by the client gate: wrong MIME type and extension. -/
def badFile : JSFile := ⟨"malware.exe", "application/octet-stream", 100⟩

/-- A resolved server response used by the witnesses. -/
def okResponse : UploadResponse :=
  ⟨true, "resume.txt",
   "Work experience in software engineering and education", 200⟩

/-- Witness for C9: the gate-failing file gets no request and a rejection. -/
theorem upload_client_gate_witness :
    (¬ (passesTypeGate badFile ∧ badFile.size ≤ 10 * 1024 * 1024)) ∧
    (uploadResume badFile (.ok okResponse)).2 = false := by
  refine ⟨by decide, ?_⟩
  exact ((upload_client_gate badFile (.ok okResponse)
    (.ok okResponse)).2.2.1 (by decide)).1

/-- C10: for a successful server response (after a request passed the client
gate), `uploadResume` resolves with the extracted text exactly when the text
is non-empty, its `character_count` is at least 100, and the lower-cased
text contains one of the resume keywords; otherwise it rejects. -/
theorem uploadResume_validates_extracted_text (f : JSFile)
    (resp : UploadResponse)
    (hg : passesTypeGate f) (hsize : f.size ≤ 10 * 1024 * 1024)
    (hsucc : resp.success = true) :
    ((uploadResume f (.ok resp)).1 = .ok resp.text ↔
      (resp.text ≠ "" ∧ 100 ≤ resp.character_count ∧
       (resumeKeywords.any fun kw =>
           strContains (Engine.lowered resp.text) kw) = true)) ∧
    (∀ t, (uploadResume f (.ok resp)).1 = .ok t → t = resp.text) ∧
    (¬ (resp.text ≠ "" ∧ 100 ≤ resp.character_count ∧
        (resumeKeywords.any fun kw =>
           strContains (Engine.lowered resp.text) kw) = true) →
      ∃ msg, (uploadResume f (.ok resp)).1 = .error msg) := by
  unfold uploadResume
  rw [if_neg (not_not_intro hg), if_neg (by omega)]
  have huf : uploadFile (.ok resp) = .ok resp := by
    simp [uploadFile, hsucc]
  rw [huf]
  simp only
  split_ifs with h₁ h₂
  · refine ⟨⟨fun h => absurd h (by simp), fun h => ?_⟩,
      fun t h => absurd h (by simp), fun _ => ⟨_, rfl⟩⟩
    rcases h₁ with h₁ | h₁
    · exact absurd h₁ h.1
    · omega
  · push_neg at h₁
    refine ⟨⟨fun _ => ⟨h₁.1, by omega, h₂⟩, fun _ => rfl⟩,
      fun t h => (Except.ok.inj h).symm, fun hbad => ?_⟩
    exact absurd ⟨h₁.1, by omega, h₂⟩ hbad
  · refine ⟨⟨fun h => absurd h (by simp), fun h => absurd h.2.2 h₂⟩,
      fun t h => absurd h (by simp), fun _ => ⟨_, rfl⟩⟩

/-- Witness for C10: the sample successful response resolves with its text. -/
theorem uploadResume_validates_extracted_text_witness :
    (passesTypeGate ⟨"resume.txt", "text/plain", 1000⟩ ∧
     (⟨"resume.txt", "text/plain", 1000⟩ : JSFile).size ≤ 10 * 1024 * 1024 ∧
     okResponse.success = true) ∧
    (uploadResume ⟨"resume.txt", "text/plain", 1000⟩
        (.ok okResponse)).1 = .ok okResponse.text := by
  refine ⟨⟨by decide, by decide, by decide⟩, ?_⟩
  exact (uploadResume_validates_extracted_text ⟨"resume.txt", "text/plain", 1000⟩
    okResponse (by decide) (by decide) (by decide)).1.mpr
    ⟨by decide, by decide, by decide⟩

end Upload
